import Mathlib

/-!
Shallow embedding of the TimeSheet_AI frontend.

The repository contains four source files:
* `src/unnamed/part_000` — a raw `fetch`-based question form (`App`), POSTing
  `{ question }` to `http://localhost:8000/timesheetanalyze` and rendering the
  `result` field of the JSON response with `JSON.stringify(·, null, 2)`.
* `src/frontend/src/chatScreen/ChatBot.tsx` — a DeepChat wrapper hitting
  `/api/chat`, whose request interceptor sends `{ content, history }` where
  `history` is `chatHistor_LLM.slice(-10)` taken after pushing the current
  user message.
* `src/frontend/src/chatScreen/ChatBot_v1.tsx` — two concatenated variants:
  the first (here `ChatBotV1`) sends `{ question }` to `/timesheetanalyze`
  and formats responses with `formatResponse`; the second (here `ChatBotV2`)
  also sends `{ question }` but additionally maintains `chatHistor_LLM` and
  computes (without using) the `slice(-10)` window.
* `src/unnamed/part_001` — two `App` shells mounting the chat components.
-/

/-- A JSON value, as handled by the frontend.  Numbers are modelled as
integers (the frontend never constructs non-integer numbers). -/
inductive Json where
  | null : Json
  | bool (b : Bool) : Json
  | num (n : Int) : Json
  | str (s : String) : Json
  | arr (elems : List Json) : Json
  | obj (fields : List (String × Json)) : Json

/-- Hexadecimal digit character (lowercase), as used by `JSON.stringify`
for `\u00XX` escapes. -/
def hexDigit (n : Nat) : Char :=
  if n < 10 then Char.ofNat (48 + n) else Char.ofNat (87 + n)

/-- Modelled from the ECMAScript `QuoteJSONString` algorithm used by
`JSON.stringify`: escape of one character. -/
def escChar (c : Char) : String :=
  if c = '"' then "\\\""
  else if c = '\\' then "\\\\"
  else if c = '\x08' then "\\b"
  else if c = '\x0c' then "\\f"
  else if c = '\n' then "\\n"
  else if c = '\r' then "\\r"
  else if c = '\t' then "\\t"
  else if c.toNat < 32 then
    "\\u00" ++ String.mk [hexDigit (c.toNat / 16), hexDigit (c.toNat % 16)]
  else String.singleton c

/-- Modelled from `JSON.stringify`'s quoting of a string value. -/
def jsonQuote (s : String) : String :=
  "\"" ++ String.join (s.data.map escChar) ++ "\""

mutual

/-- Modelled from `JSON.stringify(value, null, 2)`: serialisation of a JSON
value, where `ind` is the indentation of the surrounding context (the
closing bracket); members are indented by two further spaces. -/
def strJson (ind : String) (j : Json) : String :=
  match j with
  | .null => "null"
  | .bool b => if b then "true" else "false"
  | .num n => toString n
  | .str s => jsonQuote s
  | .arr [] => "[]"
  | .arr (x :: xs) => "[\n" ++ strElems (ind ++ "  ") x xs ++ "\n" ++ ind ++ "]"
  | .obj [] => "\x7b\x7d"
  | .obj ((k, v) :: fs) => "\x7b\n" ++ strFields (ind ++ "  ") k v fs ++ "\n" ++ ind ++ "\x7d"
termination_by sizeOf j

/-- Comma-and-newline separated array elements, each on its own line at
indentation `ind`. -/
def strElems (ind : String) (x : Json) (xs : List Json) : String :=
  match xs with
  | [] => ind ++ strJson ind x
  | y :: ys => ind ++ strJson ind x ++ ",\n" ++ strElems ind y ys
termination_by sizeOf x + sizeOf xs

/-- Comma-and-newline separated object members, each on its own line at
indentation `ind`; `k`, `v` is the first member. -/
def strFields (ind : String) (k : String) (v : Json) (fs : List (String × Json)) : String :=
  match fs with
  | [] => ind ++ jsonQuote k ++ ": " ++ strJson ind v
  | (k2, v2) :: gs => ind ++ jsonQuote k ++ ": " ++ strJson ind v ++ ",\n" ++ strFields ind k2 v2 gs
termination_by sizeOf v + sizeOf fs

end

/-- Top-level `JSON.stringify(v, null, 2)`. -/
def jsonStringify (v : Json) : String := strJson "" v

namespace FormApp

/-- The `interface AnalysisResult` of `src/unnamed/part_000`: a single `result` field. -/
structure AnalysisResult where
  result : Json

/-- The four `useState` pieces of the `App` component of
`src/unnamed/part_000`: question text, analysis result, loading flag,
error message. -/
structure AppState where
  question : String
  analysisResult : Option AnalysisResult
  error : Option String
  loading : Bool

/-- The `useState` initial values: `''`, `null`, `false`, `null`. -/
def initialState : AppState :=
  { question := "", analysisResult := none, error := none, loading := false }

/-- The hard-coded endpoint of the form variant. -/
def endpointUrl : String := "http://localhost:8000/timesheetanalyze"

/-- The JSON body `{ question }` sent by `handleSubmit`. -/
structure FormBody where
  question : String
deriving DecidableEq

/-- The request body built from the component state: `JSON.stringify({ question })`. -/
def requestBody (s : AppState) : FormBody := { question := s.question }

/-- Outcome of the `fetch`/`response.json()` sequence, seen from the
`try` block of `handleSubmit`:
* `ok data` — `response.ok` held and the body parsed as `data`;
* `httpError status statusText` — `response.ok` was false;
* `netError msg` — `fetch` or `response.json()` threw, with `msg = some m`
  when the thrown value was an `Error` with message `m`, and `none` when it
  was not an `Error` instance. -/
inductive FetchOutcome where
  | ok (data : AnalysisResult)
  | httpError (status : Nat) (statusText : String)
  | netError (msg : Option String)

/-- The first two statements of `handleSubmit`: `setLoading(true)` and
`setError(null)`. -/
def startSubmit (s : AppState) : AppState :=
  { s with loading := true, error := none }

/-- The `try` block: on `!response.ok` it throws
`new Error(` + "`Error: ${response.status} ${response.statusText}`" + `)`,
otherwise it yields the parsed data; a network or parsing failure
propagates as the thrown value's message (if any). -/
def tryBody (o : FetchOutcome) : Except (Option String) AnalysisResult :=
  match o with
  | .ok d => .ok d
  | .httpError status statusText =>
      .error (some ("Error: " ++ toString status ++ " " ++ statusText))
  | .netError m => .error m

/-- The `handleSubmit` of `src/unnamed/part_000`: start (loading on, error
cleared), then the `try`/`catch` (store the result, or store
`err instanceof Error ? err.message : 'Something went wrong'`), then the
`finally` (`setLoading(false)`). -/
def handleSubmit (s : AppState) (o : FetchOutcome) : AppState :=
  let s1 := startSubmit s
  let s2 :=
    match tryBody o with
    | .ok d => { s1 with analysisResult := some d }
    | .error m => { s1 with error := some (m.getD "Something went wrong") }
  { s2 with loading := false }

/-- What the `App` component renders from its state. -/
structure Rendered where
  buttonDisabled : Bool
  buttonLabel : String
  errorText : Option String
  resultPre : Option String
deriving DecidableEq

/-- The JSX of `src/unnamed/part_000`: the submit button has
`disabled={loading}` and label `loading ? 'Analyzing...' : 'Analyze'`;
`{error && <p ...>}` shows the error exactly when it is truthy (non-null
and non-empty); `{analysisResult && ...}` shows
`<pre>JSON.stringify(analysisResult.result, null, 2)</pre>`. -/
def render (s : AppState) : Rendered :=
  { buttonDisabled := s.loading
    buttonLabel := if s.loading then "Analyzing..." else "Analyze"
    errorText :=
      match s.error with
      | some e => if e = "" then none else some e
      | none => none
    resultPre := s.analysisResult.map fun r => jsonStringify r.result }

end FormApp

namespace ChatScreen

/-- An entry of `currentChatDetail`: a transcript message `{ role, html }`. -/
structure ChatMsg where
  role : String
  html : String
deriving DecidableEq

/-- An entry of `chatHistor_LLM`: a role/content history record `{ role, content }`. -/
structure LLMMsg where
  role : String
  content : String
deriving DecidableEq

/-- The module-scoped `newRecord` object, receiving the properties
`questions`, `Answer` and `dateAndTime`; `none` models an absent property. -/
structure NewRecord where
  questions : Option String := none
  Answer : Option String := none
  dateAndTime : Option String := none
deriving DecidableEq

/-- The module-scoped mutable state of a chat component:
`currentChatDetail`, `chatHistor_LLM` and `newRecord`. -/
structure ChatState where
  currentChatDetail : List ChatMsg := []
  chatHistor_LLM : List LLMMsg := []
  newRecord : NewRecord := {}
deriving DecidableEq

/-- The module-level initial values: two empty arrays and an empty object. -/
def initialChatState : ChatState := {}

/-- JavaScript `arr.slice(-n)` for `n > 0`: the last `n` elements of the
array (all of them when the array is shorter than `n`). -/
def sliceLast (l : List α) (n : Nat) : List α := l.drop (l.length - n)

/-- One message of the widget's native request envelope: `{ role, text }`. -/
structure InMsg where
  role : String
  text : String
deriving DecidableEq

/-- The widget's native request body: `{ messages: [...] }`. -/
structure Request where
  messages : List InMsg
deriving DecidableEq

end ChatScreen

namespace ChatBot

open ChatScreen

/-- The rewritten body `{ content, history }` sent to `/api/chat` by
`ChatBot.tsx`. -/
structure OutBody where
  content : String
  history : List LLMMsg
deriving DecidableEq

/-- The backend response as read by the response interceptor of
`ChatBot.tsx`: `response.text` and `response.answer`. -/
structure ChatResponse where
  text : String
  answer : String
deriving DecidableEq

/-- The `{ html }` object handed back to the widget for rendering. -/
structure Formatted where
  html : String
deriving DecidableEq

/-- Request interceptor of `ChatBot.tsx`, applied to a request whose first
message text is `t` (`request.body["messages"][0].text`): resets
`newRecord` and records `t` as `newRecord.questions`, pushes
`{role:"user", html:t}` onto `currentChatDetail` and `{role:"user",
content:t}` onto `chatHistor_LLM`, computes `lastFiveMessages =
chatHistor_LLM.slice(-10)` after that push, and replaces the body with
`{ content: t, history: lastFiveMessages }`. -/
def requestInterceptorCore (st : ChatState) (t : String) : ChatState × OutBody :=
  let nr : NewRecord := { questions := some t }
  let currentChatDetail := st.currentChatDetail ++ [{ role := "user", html := t }]
  let chatHistor_LLM := st.chatHistor_LLM ++ [{ role := "user", content := t }]
  let lastFiveMessages := sliceLast chatHistor_LLM 10
  ({ currentChatDetail := currentChatDetail, chatHistor_LLM := chatHistor_LLM,
     newRecord := nr },
   { content := t, history := lastFiveMessages })

/-- Request interceptor on the whole request: it reads
`request.body["messages"][0].text`; on an empty `messages` array the
JavaScript throws, modelled by `none`. -/
def requestInterceptor (st : ChatState) (req : Request) :
    Option (ChatState × OutBody) :=
  match req.messages with
  | [] => none
  | m :: _ => some (requestInterceptorCore st m.text)

/-- Response interceptor of `ChatBot.tsx`: pushes `{role:"ai",
html:response.text}` onto `currentChatDetail` and `{role:"assistant",
content:response.answer}` onto `chatHistor_LLM`, sets `newRecord.Answer`
and `newRecord.dateAndTime` (the wall-clock string is passed in as `now`),
and returns `{ html: response.text }`. -/
def responseInterceptorCore (st : ChatState) (resp : ChatResponse) (now : String) :
    ChatState × Formatted :=
  let currentChatDetail := st.currentChatDetail ++ [{ role := "ai", html := resp.text }]
  let chatHistor_LLM := st.chatHistor_LLM ++ [{ role := "assistant", content := resp.answer }]
  let nr := { st.newRecord with Answer := some resp.answer, dateAndTime := some now }
  ({ currentChatDetail := currentChatDetail, chatHistor_LLM := chatHistor_LLM,
     newRecord := nr },
   { html := resp.text })

/-- One interceptor invocation during a page session. -/
inductive ChatEvent where
  | request (t : String)
  | response (resp : ChatResponse) (now : String)

/-- The state change performed by one interceptor invocation. -/
def stepChat (st : ChatState) : ChatEvent → ChatState
  | .request t => (requestInterceptorCore st t).1
  | .response r now => (responseInterceptorCore st r now).1

/-- A page session: the sequence of interceptor invocations, in order. -/
def runChat (st : ChatState) : List ChatEvent → ChatState
  | [] => st
  | e :: es => runChat (stepChat st e) es

end ChatBot

namespace ChatBotV1

open ChatScreen

/-- The rewritten body `{ question }` sent to `/timesheetanalyze` by the
first variant in `ChatBot_v1.tsx`. -/
structure OutBody where
  question : String
deriving DecidableEq

/-- The value of `response.result` as a JavaScript value: `undefined`
models an absent field; `object raw` an object whose `raw` property is
the string `raw` (absent when `none`). -/
inductive ResultField where
  | undefined
  | null
  | boolean (b : Bool)
  | number (n : Int)
  | string (s : String)
  | object (raw : Option String)
deriving DecidableEq

/-- JavaScript truthiness of a `result` value, as tested by the guard
`if (!response.result)`. -/
def truthy : ResultField → Bool
  | .undefined => false
  | .null => false
  | .boolean b => b
  | .number n => n != 0
  | .string s => s != ""
  | .object _ => true

/-- The property access `response.result.raw` as interpolated into a
template literal: a missing `raw` property, and any non-object `result`,
interpolates as the string `"undefined"`. -/
def rawField : ResultField → String
  | .object (some s) => s
  | _ => "undefined"

/-- The backend response as read by this variant: `result`, plus the
`answer` property read by the response interceptor (absent on this
endpoint, hence an `Option`). -/
structure V1Response where
  result : ResultField
  answer : Option String := none
deriving DecidableEq

/-- The `formatResponse` helper of the first variant in
`ChatBot_v1.tsx`: a falsy `result` yields the fallback string; otherwise
the template literal — a newline, twelve spaces, `<div>`, the raw value,
`</div>`, a newline and eight spaces. -/
def formatResponse (response : V1Response) : String :=
  if !truthy response.result then
    "No result received from the server."
  else
    "\n            <div>" ++ rawField response.result ++ "</div>\n        "

/-- Request interceptor of the first variant in `ChatBot_v1.tsx`, applied
to a request whose first message text is `t`: resets `newRecord` and
records `t` as `newRecord.questions`, pushes `{role:"user", html:t}` onto
`currentChatDetail` (this variant does not touch `chatHistor_LLM`), and
replaces the body with `{ question: t }`. -/
def requestInterceptorCore (st : ChatState) (t : String) : ChatState × OutBody :=
  let nr : NewRecord := { questions := some t }
  let currentChatDetail := st.currentChatDetail ++ [{ role := "user", html := t }]
  ({ st with currentChatDetail := currentChatDetail, newRecord := nr },
   { question := t })

/-- Request interceptor on the whole request; `none` models the throw on
an empty `messages` array. -/
def requestInterceptor (st : ChatState) (req : Request) :
    Option (ChatState × OutBody) :=
  match req.messages with
  | [] => none
  | m :: _ => some (requestInterceptorCore st m.text)

/-- Response interceptor of the first variant in `ChatBot_v1.tsx`: formats
the response with `formatResponse`, pushes `{role:"ai", html:formatted}`
onto `currentChatDetail`, sets `newRecord.Answer` (to `response.answer`,
possibly absent) and `newRecord.dateAndTime`, and returns
`{ html: formatted }`. -/
def responseInterceptorCore (st : ChatState) (resp : V1Response) (now : String) :
    ChatState × ChatBot.Formatted :=
  let formatted := formatResponse resp
  let currentChatDetail := st.currentChatDetail ++ [{ role := "ai", html := formatted }]
  let nr := { st.newRecord with Answer := resp.answer, dateAndTime := some now }
  ({ st with currentChatDetail := currentChatDetail, newRecord := nr },
   { html := formatted })

end ChatBotV1

namespace ChatBotV2

open ChatScreen

/-- Request interceptor of the second variant in `ChatBot_v1.tsx`, applied
to a request whose first message text is `t`: like `ChatBot.tsx` it pushes
the user message onto both `currentChatDetail` and `chatHistor_LLM` and
computes `lastFiveMessages = chatHistor_LLM.slice(-10)`, but the computed
window is unused and the body it sends is `{ question: t }`. -/
def requestInterceptorCore (st : ChatState) (t : String) :
    ChatState × ChatBotV1.OutBody :=
  let nr : NewRecord := { questions := some t }
  let currentChatDetail := st.currentChatDetail ++ [{ role := "user", html := t }]
  let chatHistor_LLM := st.chatHistor_LLM ++ [{ role := "user", content := t }]
  let lastFiveMessages := sliceLast chatHistor_LLM 10
  ({ currentChatDetail := currentChatDetail, chatHistor_LLM := chatHistor_LLM,
     newRecord := nr },
   { question := t })

/-- Request interceptor on the whole request; `none` models the throw on
an empty `messages` array. -/
def requestInterceptor (st : ChatState) (req : Request) :
    Option (ChatState × ChatBotV1.OutBody) :=
  match req.messages with
  | [] => none
  | m :: _ => some (requestInterceptorCore st m.text)

/-- Response interceptor of the second variant in `ChatBot_v1.tsx`:
identical to the one of `ChatBot.tsx` (pushes `{role:"ai",
html:response.text}` and `{role:"assistant", content:response.answer}`,
updates `newRecord`, returns `{ html: response.text }`). -/
def responseInterceptorCore (st : ChatState) (resp : ChatBot.ChatResponse) (now : String) :
    ChatState × ChatBot.Formatted :=
  let currentChatDetail := st.currentChatDetail ++ [{ role := "ai", html := resp.text }]
  let chatHistor_LLM := st.chatHistor_LLM ++ [{ role := "assistant", content := resp.answer }]
  let nr := { st.newRecord with Answer := some resp.answer, dateAndTime := some now }
  ({ currentChatDetail := currentChatDetail, chatHistor_LLM := chatHistor_LLM,
     newRecord := nr },
   { html := resp.text })

end ChatBotV2

/-! ## Helper lemmas -/

/-- The last-`n` slice has at most `n` elements. -/
theorem sliceLast_length_le (l : List α) (n : Nat) :
    (ChatScreen.sliceLast l n).length ≤ n := by
  simp only [ChatScreen.sliceLast, List.length_drop]
  omega

/-- The last-`n` slice is a suffix of the list. -/
theorem sliceLast_isSuffix (l : List α) (n : Nat) :
    ChatScreen.sliceLast l n <:+ l :=
  List.drop_suffix _ _

/-- One interceptor invocation of `ChatBot.tsx` only appends to the two
module-scoped lists. -/
theorem stepChat_extends (st : ChatScreen.ChatState) (e : ChatBot.ChatEvent) :
    st.currentChatDetail <+: (ChatBot.stepChat st e).currentChatDetail ∧
    st.chatHistor_LLM <+: (ChatBot.stepChat st e).chatHistor_LLM := by
  cases e <;> exact ⟨ List.prefix_append _ _, List.prefix_append _ _⟩

/-- Over a whole session of `ChatBot.tsx` interceptor invocations, the two
module-scoped lists only grow. -/
theorem runChat_extends (st : ChatScreen.ChatState) (evs : List ChatBot.ChatEvent) :
    st.currentChatDetail <+: (ChatBot.runChat st evs).currentChatDetail ∧
    st.chatHistor_LLM <+: (ChatBot.runChat st evs).chatHistor_LLM := by
  induction evs generalizing st with
  | nil => exact ⟨ List.prefix_refl _, List.prefix_refl _⟩
  | cons e es ih =>
      have h1 := stepChat_extends st e
      have h2 := ih (ChatBot.stepChat st e)
      exact ⟨h1.1.trans h2.1, h1.2.trans h2.2⟩

/-! ## Claim theorems -/

/-- Claim C1: for every accumulated role/content history list, the window
computed by the chat request interceptor as `chatHistor_LLM.slice(-10)`
contains at most ten entries, and those entries are exactly a suffix taken
from the end of the accumulated list (hence in their original order).
Stated for the `history` field attached by the `ChatBot.tsx` interceptor
(also lifted to the whole-request interceptor) and for the identical
computation performed by the second `ChatBot_v1.tsx` variant. -/
theorem history_window_last_ten :
    ∀ (st : ChatScreen.ChatState) (t : String) (m : ChatScreen.InMsg)
      (rest : List ChatScreen.InMsg),
      (ChatBot.requestInterceptorCore st t).2.history.length ≤ 10 ∧
      (ChatBot.requestInterceptorCore st t).2.history <:+
        (ChatBot.requestInterceptorCore st t).1.chatHistor_LLM ∧
      (ChatBot.requestInterceptorCore st t).2.history =
        ChatScreen.sliceLast ((ChatBot.requestInterceptorCore st t).1.chatHistor_LLM) 10 ∧
      ChatBot.requestInterceptor st { messages := m :: rest } =
        some (ChatBot.requestInterceptorCore st m.text) ∧
      (ChatScreen.sliceLast ((ChatBotV2.requestInterceptorCore st t).1.chatHistor_LLM) 10).length ≤ 10 ∧
      ChatScreen.sliceLast ((ChatBotV2.requestInterceptorCore st t).1.chatHistor_LLM) 10 <:+
        (ChatBotV2.requestInterceptorCore st t).1.chatHistor_LLM := by
  intro st t m rest
  exact ⟨sliceLast_length_le _ _, sliceLast_isSuffix _ _, rfl, rfl,
    sliceLast_length_le _ _, sliceLast_isSuffix _ _⟩

/-- Claim C2: in the chat variant using `formatResponse`, a backend
response with a missing `result` field (JavaScript `undefined`) makes
`formatResponse` return — and the response interceptor hand the widget —
the literal fallback string "No result received from the server.". -/
theorem missing_result_fallback :
    ∀ (a : Option String) (st : ChatScreen.ChatState) (now : String),
      ChatBotV1.formatResponse { result := .undefined, answer := a } =
        "No result received from the server." ∧
      (ChatBotV1.responseInterceptorCore st { result := .undefined, answer := a } now).2.html =
        "No result received from the server." := by
  intro a st now
  exact ⟨rfl, rfl⟩

/-- Claim C3 counterexample: on the response body with
`result = { raw: "X" }`, `formatResponse` does not return the literal
HTML fragment `<div>X</div>`; the returned string carries the template
literal's surrounding whitespace. -/
theorem chat_div_render_not_literal :
    ChatBotV1.formatResponse { result := .object (some "X"), answer := none } ≠
      "<div>X</div>" := by
  decide

/-- Claim C3 as amended: for a successful body whose `result` is
`{ raw: "X" }`, the form variant renders the value pretty-printed with
`JSON.stringify(·, null, 2)`, and the chat variant using `formatResponse`
returns the HTML fragment `<div>X</div>` surrounded by the template
literal's fixed whitespace (a newline and twelve spaces before, a newline
and eight spaces after). -/
theorem raw_result_rendering :
    ∀ (s : FormApp.AppState) (v : Json) (a : Option String) (x : String),
      (FormApp.render { s with analysisResult := some { result := v } }).resultPre =
        some (jsonStringify v) ∧
      jsonStringify (Json.obj [("raw", Json.str "X")]) = "\x7b\n  \"raw\": \"X\"\n\x7d" ∧
      ChatBotV1.formatResponse { result := .object (some x), answer := a } =
        "\n            <div>" ++ x ++ "</div>\n        " := by
  intro s v a x
  refine ⟨rfl, ?_, rfl⟩
  simp only [jsonStringify, strJson, strFields, jsonQuote, escChar]
  rfl

/-- Claim C4: in the form variant, a non-2xx HTTP status makes
`handleSubmit` surface the error string composed of the status code and
the status text (`Error: <status> <statusText>`); in particular a 500
response yields an error string containing "500". -/
theorem http_error_status_string :
    ∀ (s : FormApp.AppState) (status : Nat) (statusText : String),
      (FormApp.handleSubmit s (.httpError status statusText)).error =
        some ("Error: " ++ toString status ++ " " ++ statusText) ∧
      (FormApp.handleSubmit s (.httpError 500 "Internal Server Error")).error =
        some "Error: 500 Internal Server Error" ∧
      "500".data <:+: ("Error: 500 Internal Server Error").data := by
  intro s status statusText
  exact ⟨rfl, rfl, by decide⟩

/-- Claim C5: in the form variant, every submission sets the loading flag
at the start of `handleSubmit` (clearing any previous error) and clears
it again when the handler completes, in all outcomes (success, HTTP
error, network error); initially the flag is false. -/
theorem loading_flag_lifecycle :
    FormApp.initialState.loading = false ∧
    ∀ (s : FormApp.AppState) (o : FormApp.FetchOutcome),
      (FormApp.startSubmit s).loading = true ∧
      (FormApp.startSubmit s).error = none ∧
      (FormApp.handleSubmit s o).loading = false := by
  exact ⟨rfl, fun s o => ⟨rfl, rfl, rfl⟩⟩

/-- Claim C6: for every submitted non-empty question text, the outgoing
request body contains that text — as the `question` field in the form
variant and in both `ChatBot_v1.tsx` variants, and as the `content` field
in the `/api/chat` variant. -/
theorem question_present_in_body :
    ∀ (t : String) (st : ChatScreen.ChatState) (s : FormApp.AppState),
      t ≠ "" →
      (FormApp.requestBody { s with question := t }).question = t ∧
      (ChatBot.requestInterceptorCore st t).2.content = t ∧
      (ChatBotV1.requestInterceptorCore st t).2.question = t ∧
      (ChatBotV2.requestInterceptorCore st t).2.question = t := by
  intro t st s _
  exact ⟨rfl, rfl, rfl, rfl⟩

/-- Witness for claim C6, at the concrete question "hi" from the initial
states. -/
theorem question_present_in_body_witness :
    ("hi" : String) ≠ "" ∧
    ((FormApp.requestBody { FormApp.initialState with question := "hi" }).question = "hi" ∧
     (ChatBot.requestInterceptorCore ChatScreen.initialChatState "hi").2.content = "hi" ∧
     (ChatBotV1.requestInterceptorCore ChatScreen.initialChatState "hi").2.question = "hi" ∧
     (ChatBotV2.requestInterceptorCore ChatScreen.initialChatState "hi").2.question = "hi") :=
  ⟨by decide,
   question_present_in_body "hi" ChatScreen.initialChatState FormApp.initialState (by decide)⟩

/-- Claim C7 counterexample: on the very first message of a session
("hi", sent from the pristine module state), the `history` attached by
the `ChatBot.tsx` request interceptor is not a window of the turns
exchanged before that message: the prior accumulated history is empty,
yet the attached history already contains the current user turn. -/
theorem history_window_not_prior_only :
    (ChatBot.requestInterceptorCore ChatScreen.initialChatState "hi").2.history =
      [{ role := "user", content := "hi" }] ∧
    ChatScreen.initialChatState.chatHistor_LLM = [] ∧
    ¬ List.Sublist
        (ChatBot.requestInterceptorCore ChatScreen.initialChatState "hi").2.history
        ChatScreen.initialChatState.chatHistor_LLM := by
  exact ⟨by decide, rfl, by decide⟩

/-- Claim C7 as amended: in the variant that attaches a `history` field
(`ChatBot.tsx`), the attached history is a bounded trailing window — at
most ten entries, a suffix, in original order — of the accumulated
role/content history after the current message has been pushed onto it;
it therefore includes the message currently being sent, and is never
empty. -/
theorem history_window_includes_current :
    ∀ (st : ChatScreen.ChatState) (t : String),
      (ChatBot.requestInterceptorCore st t).1.chatHistor_LLM =
        st.chatHistor_LLM ++ [{ role := "user", content := t }] ∧
      (ChatBot.requestInterceptorCore st t).2.history =
        ChatScreen.sliceLast (st.chatHistor_LLM ++ [{ role := "user", content := t }]) 10 ∧
      (ChatScreen.sliceLast (st.chatHistor_LLM ++ [{ role := "user", content := t }]) 10).length ≤ 10 ∧
      ChatScreen.sliceLast (st.chatHistor_LLM ++ [{ role := "user", content := t }]) 10 <:+
        st.chatHistor_LLM ++ [{ role := "user", content := t }] ∧
      1 ≤ (ChatScreen.sliceLast (st.chatHistor_LLM ++ [{ role := "user", content := t }]) 10).length := by
  intro st t
  refine ⟨rfl, rfl, sliceLast_length_le _ _, sliceLast_isSuffix _ _, ?_⟩
  simp only [ChatScreen.sliceLast, List.length_drop, List.length_append,
    List.length_cons, List.length_nil]
  omega

/-- Claim C8: every request or response interceptor invocation in the
chat variants only appends to the module-scoped transcript list
(`currentChatDetail`) and role/content history list (`chatHistor_LLM`):
the old lists are prefixes of the new ones (so every entry present before
the call is still present, unchanged and in the same position), and over
any whole session of `ChatBot.tsx` interceptor invocations the initial
lists remain prefixes of the final ones. -/
theorem transcript_append_only :
    ∀ (st : ChatScreen.ChatState) (t : String) (r : ChatBot.ChatResponse)
      (vr : ChatBotV1.V1Response) (now : String) (evs : List ChatBot.ChatEvent),
      (st.currentChatDetail <+: (ChatBot.requestInterceptorCore st t).1.currentChatDetail ∧
       st.chatHistor_LLM <+: (ChatBot.requestInterceptorCore st t).1.chatHistor_LLM) ∧
      (st.currentChatDetail <+: (ChatBot.responseInterceptorCore st r now).1.currentChatDetail ∧
       st.chatHistor_LLM <+: (ChatBot.responseInterceptorCore st r now).1.chatHistor_LLM) ∧
      (st.currentChatDetail <+: (ChatBotV1.requestInterceptorCore st t).1.currentChatDetail ∧
       st.chatHistor_LLM <+: (ChatBotV1.requestInterceptorCore st t).1.chatHistor_LLM) ∧
      (st.currentChatDetail <+: (ChatBotV1.responseInterceptorCore st vr now).1.currentChatDetail ∧
       st.chatHistor_LLM <+: (ChatBotV1.responseInterceptorCore st vr now).1.chatHistor_LLM) ∧
      (st.currentChatDetail <+: (ChatBotV2.requestInterceptorCore st t).1.currentChatDetail ∧
       st.chatHistor_LLM <+: (ChatBotV2.requestInterceptorCore st t).1.chatHistor_LLM) ∧
      (st.currentChatDetail <+: (ChatBotV2.responseInterceptorCore st r now).1.currentChatDetail ∧
       st.chatHistor_LLM <+: (ChatBotV2.responseInterceptorCore st r now).1.chatHistor_LLM) ∧
      (st.currentChatDetail <+: (ChatBot.runChat st evs).currentChatDetail ∧
       st.chatHistor_LLM <+: (ChatBot.runChat st evs).chatHistor_LLM) := by
  intro st t r vr now evs
  exact ⟨⟨ List.prefix_append _ _, List.prefix_append _ _⟩,
    ⟨ List.prefix_append _ _, List.prefix_append _ _⟩,
    ⟨ List.prefix_append _ _, List.prefix_refl _⟩,
    ⟨ List.prefix_append _ _, List.prefix_refl _⟩,
    ⟨ List.prefix_append _ _, List.prefix_append _ _⟩,
    ⟨ List.prefix_append _ _, List.prefix_append _ _⟩,
    runChat_extends st evs⟩

/-- Claim C9: in the chat variant using `formatResponse`, a `result`
field that is present but falsy — `null`, `false`, `0` or the empty
string — also yields the fallback string: the guard tests JavaScript
falsiness of the field, not its absence. -/
theorem falsy_result_fallback :
    ∀ (a : Option String),
      ChatBotV1.formatResponse { result := .null, answer := a } =
        "No result received from the server." ∧
      ChatBotV1.formatResponse { result := .boolean false, answer := a } =
        "No result received from the server." ∧
      ChatBotV1.formatResponse { result := .number 0, answer := a } =
        "No result received from the server." ∧
      ChatBotV1.formatResponse { result := .string "", answer := a } =
        "No result received from the server." := by
  intro a
  refine ⟨rfl, rfl, ?_, ?_⟩ <;>
    simp [ChatBotV1.formatResponse, ChatBotV1.truthy]

/-- Claim C10: in the form variant, the submit button's `disabled`
attribute equals the loading flag in every rendered state, so while a
request is in flight the button is disabled and a second submission
cannot be started from it. -/
theorem submit_button_disabled_iff_loading :
    ∀ (s : FormApp.AppState),
      (FormApp.render s).buttonDisabled = s.loading := by
  intro s
  rfl
